import Mathlib

/-!
Verification development for the NotePilot meeting-capture application.

Each definition below is a shallow embedding of one function or state
component of the source (file and line references in the doc comments).
Times are modelled as `Nat` seconds, media tracks as `Nat` identifiers,
and JavaScript truthiness of strings/arrays is made explicit where the
source relies on it.
-/

namespace NotePilot

/-- One transcript line, `{ timestamp, text, isFinal }`, as appended by
`Recorder`'s `recognition.onresult` handler and rendered by `SummaryView`. -/
structure TranscriptSegment where
  timestamp : Nat
  text : String
  isFinal : Bool
deriving DecidableEq

/-- One live highlight marker, `{ timestamp, label }`, as appended by
`Recorder.addHighlight`. -/
structure MeetingHighlight where
  timestamp : Nat
  label : String
deriving DecidableEq

/-! ## Clip builder (`SummaryView`)

State hooks `newClipStart`, `newClipEnd`, `newClipLabel`, `clips` and the
handlers `captureStart`, `captureEnd`, `saveClip`, `deleteClip`
(SummaryView lines 17-95).  The video player's `currentTime` is passed in
as an argument. -/

/-- `VideoClip`: `{ id, label, start, end }` committed by `saveClip`.
The source field `end` is a Lean keyword, so it is written `«end»`. -/
structure VideoClip where
  id : String
  label : String
  start : Nat
  «end» : Nat
deriving DecidableEq

/-- The clip-builder portion of `SummaryView`'s component state. -/
structure ClipBuilder where
  newClipStart : Option Nat
  newClipEnd : Option Nat
  newClipLabel : String
  clips : List VideoClip
deriving DecidableEq

/-- Initial clip-builder state (`useState` initialisers, SummaryView 18-21). -/
def ClipBuilder.init : ClipBuilder :=
  { newClipStart := none, newClipEnd := none, newClipLabel := "", clips := [] }

/-- `captureStart` (SummaryView 61-69): records the player position as the
pending start and clears the pending end if the pending end is before the
newly captured start. -/
def captureStart (currentTime : Nat) (s : ClipBuilder) : ClipBuilder :=
  { s with
    newClipStart := some currentTime
    newClipEnd :=
      match s.newClipEnd with
      | some e => if e < currentTime then none else some e
      | none => none }

/-- `captureEnd` (SummaryView 71-75): records the player position as the
pending end, with no comparison against the pending start. -/
def captureEnd (currentTime : Nat) (s : ClipBuilder) : ClipBuilder :=
  { s with newClipEnd := some currentTime }

/-- The label input's `onChange` (SummaryView 435). -/
def setClipLabel (label : String) (s : ClipBuilder) : ClipBuilder :=
  { s with newClipLabel := label }

/-- JavaScript `String.prototype.trim`: strips leading and trailing
whitespace.  Defined structurally on the character list so that it
computes by reduction (Lean's builtin trim is defined through substring
positions and does not). -/
def jsTrim (s : String) : String :=
  String.mk (((s.data.dropWhile Char.isWhitespace).reverse.dropWhile
    Char.isWhitespace).reverse)

/-- `saveClip` (SummaryView 77-91): commits a clip only when a pending
start, a pending end and a label that is non-empty after trimming are all
present (`newClipStart !== null && newClipEnd !== null &&
newClipLabel.trim()`), then resets the form.  The fresh `Date.now()` id
is passed in. -/
def saveClip (id : String) (s : ClipBuilder) : ClipBuilder :=
  match s.newClipStart, s.newClipEnd with
  | some a, some b =>
    if jsTrim s.newClipLabel ≠ "" then
      { newClipStart := none, newClipEnd := none, newClipLabel := ""
        clips := s.clips ++ [{ id := id, label := s.newClipLabel, start := a, «end» := b }] }
    else s
  | _, _ => s

/-- `deleteClip` (SummaryView 93-95): removes the clip with the given id. -/
def deleteClip (id : String) (s : ClipBuilder) : ClipBuilder :=
  { s with clips := s.clips.filter (fun c => !(c.id == id)) }

/-! ## Calendar merge (`App.handleGoogleConnect`)

Both the demo branch (App 33-37) and the real-fetch branch (App 48-52)
merge newly imported events into the existing meeting list with the same
expression:
`const existingIds = new Set(prev.map(m => m.id));`
`return [...prev, ...newEvents.filter(e => !existingIds.has(e.id))];` -/

/-- `Attendee`: `{ id, name, email, avatar }` (constants.ts 4-7). -/
structure Attendee where
  id : String
  name : String
  email : String
  avatar : String
deriving DecidableEq

/-- `Meeting`: `{ id, title, platform, time, duration, url, attendees }`
(constants.ts 17-25). -/
structure Meeting where
  id : String
  title : String
  platform : String
  time : String
  duration : String
  url : String
  attendees : List Attendee
deriving DecidableEq

/-- The `setMeetings` merge used by both branches of
`App.handleGoogleConnect` (App 33-37 and 48-52). -/
def mergeMeetings (prev newEvents : List Meeting) : List Meeting :=
  prev ++ newEvents.filter (fun e => !((prev.map (·.id)).contains e.id))

/-! ## Summarization service (`geminiService.ts`) and result
normalization (`App.handleStopRecording`, App 108-118) -/

/-- Two-digit zero padding, used to model
`new Date(t*1000).toISOString().substr(11, 8)`. -/
def pad2 (n : Nat) : String :=
  if n < 10 then "0" ++ toString n else toString n

/-- `new Date(t * 1000).toISOString().substr(11, 8)` (geminiService 21, 26)
renders the time-of-day `HH:MM:SS` of `t` seconds. -/
def hmsOfSeconds (t : Nat) : String :=
  pad2 (t / 3600 % 24) ++ ":" ++ pad2 (t / 60 % 60) ++ ":" ++ pad2 (t % 60)

/-- `formattedTranscript` (geminiService 20-22). -/
def formattedTranscript (transcript : List TranscriptSegment) : String :=
  String.intercalate "\n"
    (transcript.map (fun t => "[" ++ hmsOfSeconds t.timestamp ++ "] " ++ t.text))

/-- `formattedHighlights` (geminiService 25-27). -/
def formattedHighlights (highlights : List MeetingHighlight) : String :=
  String.intercalate "\n"
    (highlights.map (fun h =>
      "User marked important moment at: " ++ hmsOfSeconds h.timestamp))

/-- The request sent to `ai.models.generateContent` (geminiService 29-99):
model name, the inline audio data, and the prompt's variable parts.  The
two `|| '…'` fallbacks inside the prompt template (lines 35 and 37) use
JavaScript string falsiness: the empty string is replaced by the fallback. -/
structure SummaryRequest where
  model : String
  audioData : String
  contextText : String
  highlightsText : String
  transcriptText : String
deriving DecidableEq

/-- Assembles the `generateContent` request (geminiService 29-99). -/
def buildSummaryRequest (audioData contextText : String)
    (transcript : List TranscriptSegment)
    (highlights : List MeetingHighlight) : SummaryRequest :=
  { model := "gemini-2.5-flash"
    audioData := audioData
    contextText := contextText
    highlightsText :=
      if formattedHighlights highlights = "" then "None provided."
      else formattedHighlights highlights
    transcriptText :=
      if formattedTranscript transcript = "" then
        "No live transcript available, rely on audio."
      else formattedTranscript transcript }

/-- The object produced by `JSON.parse(response.text || '{}')`
(geminiService 101): every field the backend may or may not supply,
including a possible `transcript` field of its own. -/
structure GenParsed where
  summaryText : Option String
  keyPoints : Option (List String)
  actionItems : Option (List String)
  attendeesDetected : Option (List String)
  sentiment : Option String
  followUpEmail : Option String
  transcript : Option (List TranscriptSegment)
deriving DecidableEq

/-- A `GenParsed` with every field absent: the backend omitted everything. -/
def GenParsed.empty : GenParsed :=
  { summaryText := none, keyPoints := none, actionItems := none
    attendeesDetected := none, sentiment := none, followUpEmail := none
    transcript := none }

/-- What `generateMeetingSummary` resolves with: the parsed backend fields
plus a `transcript` that is always set (geminiService 104-107). -/
structure ServiceResult where
  summaryText : Option String
  keyPoints : Option (List String)
  actionItems : Option (List String)
  attendeesDetected : Option (List String)
  sentiment : Option String
  followUpEmail : Option String
  transcript : List TranscriptSegment
deriving DecidableEq

/-- `return { ...parsed, transcript: transcript }` (geminiService 104-107):
spread of the parsed fields, then the `transcript` key is overwritten with
the transcript that was supplied in the request. -/
def serviceMerge (parsed : GenParsed) (transcript : List TranscriptSegment) :
    ServiceResult :=
  { summaryText := parsed.summaryText
    keyPoints := parsed.keyPoints
    actionItems := parsed.actionItems
    attendeesDetected := parsed.attendeesDetected
    sentiment := parsed.sentiment
    followUpEmail := parsed.followUpEmail
    transcript := transcript }

/-- `const apiKey = process.env.API_KEY || ''` (geminiService 5): an absent
environment variable yields the empty string. -/
def apiKeyOfEnv : Option String → String
  | none => ""
  | some s => s

/-- `generateMeetingSummary` (geminiService 9-112).  The external call is
abstracted as a `backend` oracle from the built request to a parsed
response (or an error).  The guard `if (!apiKey) throw …` (lines 15-17)
runs before the request is built or sent: JavaScript string falsiness
makes `!apiKey` true exactly when `apiKey` is the empty string. -/
def generateMeetingSummary (apiKey : String) (audioData contextText : String)
    (transcript : List TranscriptSegment)
    (highlights : List MeetingHighlight)
    (backend : SummaryRequest → Except String GenParsed) :
    Except String ServiceResult :=
  if apiKey = "" then
    .error "API Key is missing. Please set process.env.API_KEY"
  else
    match backend (buildSummaryRequest audioData contextText transcript highlights) with
    | .error e => .error e
    | .ok parsed => .ok (serviceMerge parsed transcript)

/-- JavaScript `x || d` for an optional string `x`: `undefined` and the
empty string are falsy, any other string is truthy. -/
def jsOrStr : Option String → String → String
  | none, d => d
  | some s, d => if s = "" then d else s

/-- JavaScript `x || d` for an optional array `x`: only `undefined` is
falsy — every array, including the empty one, is truthy. -/
def jsOrList {α : Type} : Option (List α) → List α → List α
  | none, d => d
  | some l, _ => l

/-- `SummaryData` as assembled by `App.setSummaryData` (App 108-118). -/
structure SummaryData where
  meetingTitle : String
  date : String
  summaryText : String
  actionItems : List String
  keyPoints : List String
  attendeesDetected : List String
  sentiment : String
  followUpEmail : String
  transcript : List TranscriptSegment
deriving DecidableEq

/-- `setSummaryData({...})` (App 108-118): each backend field is defaulted
with JavaScript `||`.  `result.transcript || []` never takes the fallback
because the service always supplies an array and arrays are truthy. -/
def normalizeSummaryData (activeMeetingTitle : Option String) (date : String)
    (result : ServiceResult) : SummaryData :=
  { meetingTitle := jsOrStr activeMeetingTitle "Unknown Meeting"
    date := date
    summaryText := jsOrStr result.summaryText "No summary generated."
    actionItems := jsOrList result.actionItems []
    keyPoints := jsOrList result.keyPoints []
    attendeesDetected := jsOrList result.attendeesDetected []
    sentiment := jsOrStr result.sentiment "Neutral"
    followUpEmail := jsOrStr result.followUpEmail ""
    transcript := result.transcript }

namespace Recorder

/-! ## Capture acquisition and track teardown (`Recorder.startCapture`,
Recorder lines 566-666, and `Recorder.cleanup`, lines 729-742)

Media tracks are modelled as `Nat` identifiers.  A `MediaStream` carries
its video and audio track lists.  `getDisplayMedia` / `getUserMedia`
results are passed in as `Option MediaStream`: `none` means the
permission prompt was refused, which in the browser raises
`NotAllowedError` and lands in the `catch` block (lines 659-665), where
`onCancel()` aborts the attempt. -/

/-- A media stream's device tracks. -/
structure MediaStream where
  videoTracks : List Nat
  audioTracks : List Nat
deriving DecidableEq

/-- `stream.getTracks()`. -/
def MediaStream.getTracks (s : MediaStream) : List Nat :=
  s.videoTracks ++ s.audioTracks

/-- The start-sequence failure observed by the `catch` block: a refused
permission prompt raises `NotAllowedError` (lines 662-664). -/
inductive CaptureError
  | notAllowed
deriving DecidableEq

/-- The audio-graph inputs wired into `audioCtx.createMediaStreamDestination()`
(lines 589-602): the display's system audio and/or the microphone. -/
inductive MixSource
  | sysSource
  | micSource
deriving DecidableEq

/-- Everything `startCapture` acquires and composes when it succeeds. -/
structure Acquired where
  displayStream : MediaStream
  micStream : MediaStream
  mixSources : List MixSource
  mixedStream : MediaStream
deriving DecidableEq

/-- The acquisition and composition part of `startCapture` (lines 574-609).
`getDisplayMedia` is awaited first (line 574); a refusal throws and aborts
the whole sequence.  `getUserMedia` is awaited second (line 580); a
refusal likewise throws and aborts, discarding the already-acquired
display stream.  On success the mixer destination receives the display
audio if the display stream has any audio track (lines 591-597, else only
a console warning) and the microphone audio if the mic stream has any
audio track (lines 599-602); the final mixed stream (lines 605-608) is
built from the display's video tracks plus the destination stream's
single audio track, `destTrack`. -/
def startCapture (display mic : Option MediaStream) (destTrack : Nat) :
    Except CaptureError Acquired :=
  match display with
  | none => .error .notAllowed
  | some d =>
    match mic with
    | none => .error .notAllowed
    | some m =>
      .ok
        { displayStream := d
          micStream := m
          mixSources :=
            (if d.audioTracks.isEmpty then [] else [.sysSource]) ++
            (if m.audioTracks.isEmpty then [] else [.micSource])
          mixedStream := { videoTracks := d.videoTracks, audioTracks := [destTrack] } }

/-- The tracks stopped by `cleanup` (lines 733-735):
`if (streamRef.current) streamRef.current.getTracks().forEach(t => t.stop())`.
`streamRef.current` is assigned the composed `mixedStream` at line 609 —
which happens only after both acquisitions succeed — so on the failed
acquisition path it is still `null` and no track is stopped. -/
def cleanupStoppedTracks (streamRef : Option MediaStream) : List Nat :=
  match streamRef with
  | none => []
  | some s => s.getTracks

/-! ## The live recording session (`Recorder`, lines 527-798)

`Recorder` is a React function component.  Its handlers are installed by
`startCapture` / `initSpeechRecognition`, which run exactly once, from the
mount-only effect `useEffect(() => { startCapture(); … }, [])`
(lines 558-564).  A closure created during a render captures the values
the state constants (`status`, `duration`, `transcript`, `currentText`,
`highlights`) had in that render; only `useRef` cells (`chunksRef`,
`mediaRecorderRef`, `streamRef`, `recognitionRef`, …) and functional
`setX(prev => …)` updates see the live values.  The handlers installed at
mount therefore capture the initial render's values — this capture is made
explicit below as `RenderEnv` / `mountEnv`.  Handlers that are re-created
on every render and invoked through props (the "Mark Important" and
"End & Summarize" buttons) see the current state. -/

/-- `status` values of the `Recorder` component (line 528). -/
inductive Status
  | idle
  | recording
  | paused
deriving DecidableEq

/-- One entry of `event.results` as read by `recognition.onresult`
(lines 683-689): the `isFinal` flag and `results[i][0].transcript`. -/
structure SpeechResult where
  isFinal : Bool
  transcript : String
deriving DecidableEq

/-- The arguments of one `onStop(fullBlob, fullBlob, transcript, highlights)`
invocation (line 648); the blob is represented by its chunk list. -/
structure StopPayload where
  chunks : List Nat
  transcript : List TranscriptSegment
  highlights : List MeetingHighlight
deriving DecidableEq

/-- The `Recorder` component's state: the `useState` hooks
(lines 528-535), the refs that carry session data (`chunksRef`, the
`MediaRecorder`'s active/inactive state, the interval, the recognition
object), and the record of `onStop` prop invocations. -/
structure State where
  status : Status
  duration : Nat
  transcript : List TranscriptSegment
  currentText : String
  highlights : List MeetingHighlight
  chunks : List Nat
  recorderActive : Bool
  timerRunning : Bool
  recognitionRunning : Bool
  onStopCalls : List StopPayload
deriving DecidableEq

/-- The state constants a closure captures from the render that created
it. -/
structure RenderEnv where
  status : Status
  duration : Nat
  transcript : List TranscriptSegment
  highlights : List MeetingHighlight
deriving DecidableEq

/-- The render-captured view of a state. -/
def envOf (s : State) : RenderEnv :=
  { status := s.status, duration := s.duration
    transcript := s.transcript, highlights := s.highlights }

/-- The component state at mount: the `useState` initialisers
(lines 528-535) with no recorder, timer or recognition running yet. -/
def initState : State :=
  { status := .idle, duration := 0, transcript := [], currentText := ""
    highlights := [], chunks := [], recorderActive := false
    timerRunning := false, recognitionRunning := false, onStopCalls := [] }

/-- The environment captured by every handler installed during mount
(`startCapture` and `initSpeechRecognition` run from the mount-only
effect, lines 558-564, inside the initial render's closure). -/
def mountEnv : RenderEnv := envOf initState

/-- `recognition.onresult` (lines 679-701).  The loop splits the event's
results into concatenated `final` and `interim` strings.  A non-empty
`final` (JavaScript string truthiness) appends a segment stamped with the
captured `duration` — `env.duration`, the comment at line 693 reads
"Use current recording duration" — via the functional `setTranscript`
update (live list) and clears `currentText`; otherwise `currentText` is
replaced by the interim text. -/
def onresult (env : RenderEnv) (results : List SpeechResult) (s : State) :
    State :=
  let final := String.join ((results.filter (·.isFinal)).map (·.transcript))
  let interim := String.join ((results.filter (fun r => !r.isFinal)).map (·.transcript))
  if final ≠ "" then
    { s with
      transcript := s.transcript ++
        [{ timestamp := env.duration, text := final, isFinal := true }]
      currentText := "" }
  else
    { s with currentText := interim }

/-- `recognition.onend` (lines 708-716), the "Auto-restart if it stops
unexpectedly" handler: if the captured `status` reads `'RECORDING'` it
calls `recognition.start()`, swallowing the already-started exception —
modelled as (re)setting the running flag. -/
def onend (env : RenderEnv) (s : State) : State :=
  if env.status = .recording then { s with recognitionRunning := true } else s

/-- `mediaRecorder.ondataavailable` (lines 636-640): chunks with
`e.data.size > 0` are pushed onto the live `chunksRef`. -/
def ondataavailable (size : Nat) (s : State) : State :=
  if size > 0 then { s with chunks := s.chunks ++ [size] } else s

/-- `mediaRecorder.onstop` (lines 642-649): builds the full blob from the
live `chunksRef`, stops recognition through the live `recognitionRef`,
and calls the `onStop` prop with the blob and the captured `transcript`
and `highlights` constants — `env.transcript` and `env.highlights`. -/
def onstop (env : RenderEnv) (s : State) : State :=
  { s with
    recognitionRunning := false
    onStopCalls := s.onStopCalls ++
      [{ chunks := s.chunks, transcript := env.transcript, highlights := env.highlights }] }

/-- The 1 Hz interval tick (lines 655-657), a functional
`setDuration(prev => prev + 1)` update. -/
def tick (s : State) : State :=
  if s.timerRunning then { s with duration := s.duration + 1 } else s

/-- `addHighlight` (lines 744-747), invoked through the "Mark Important"
button whose `onClick` closure is re-created each render: it reads the
live `duration`. -/
def addHighlight (s : State) : State :=
  { s with highlights := s.highlights ++ [{ timestamp := s.duration, label := "Important" }] }

/-- `cleanup` (lines 729-742): clears the interval and stops recognition
(the stream-track and audio-context releases are modelled by
`cleanupStoppedTracks` above). -/
def cleanup (s : State) : State :=
  { s with timerRunning := false, recognitionRunning := false }

/-- `handleStopRecording` (lines 722-727): if the `MediaRecorder` is not
already inactive it is stopped — which makes it inactive and fires
`onstop` exactly once, with the environment captured at mount — then
`cleanup` runs.  This handler reads only refs, so every render's closure
of it behaves identically. -/
def handleStopRecording (s : State) : State :=
  cleanup
    (if s.recorderActive then onstop mountEnv { s with recorderActive := false } else s)

/-- The component state once `startCapture` has completed (lines 626-657):
the recorder is started (`mediaRecorder.start(1000)`), `status` is set to
`'RECORDING'`, the 1 Hz interval is armed, and recognition was started by
`initSpeechRecognition` (line 719). -/
def startedState : State :=
  { initState with
    status := .recording, recorderActive := true
    timerRunning := true, recognitionRunning := true }

/-- The asynchronous callbacks that can reach a live session, all
delivered on the single event loop. -/
inductive Event
  /-- `recognition.onresult` with the given results. -/
  | result (results : List SpeechResult)
  /-- The underlying recognition stream ends on its own: the platform
  clears the running stream, then `recognition.onend` fires. -/
  | recogEnd
  /-- The 1 Hz interval tick. -/
  | tick
  /-- `mediaRecorder.ondataavailable` with a chunk of the given size. -/
  | data (size : Nat)
  /-- The "Mark Important" button (`addHighlight`). -/
  | highlight
  /-- The "End & Summarize" button (`handleStopRecording`). -/
  | opStop
  /-- `displayStream.getVideoTracks()[0].onended` (lines 627-629), which
  calls the same `handleStopRecording`. -/
  | trackEnded
deriving DecidableEq

/-- One event dispatch.  Handlers installed at mount receive `mountEnv`. -/
def step (s : State) : Event → State
  | .result results => onresult mountEnv results s
  | .recogEnd => onend mountEnv { s with recognitionRunning := false }
  | .tick => tick s
  | .data size => ondataavailable size s
  | .highlight => addHighlight s
  | .opStop => handleStopRecording s
  | .trackEnded => handleStopRecording s

/-- The session state after a sequence of events hits a freshly started
recording. -/
def run (events : List Event) : State :=
  events.foldl step startedState

/-- Delivery invariant: either the recorder is still active and `onStop`
was never called, or the recorder is inactive and `onStop` was called
exactly once. -/
def StopInv (s : State) : Prop :=
  (s.recorderActive = true ∧ s.onStopCalls = []) ∨
  (s.recorderActive = false ∧ s.onStopCalls.length = 1)

end Recorder

section RecorderLemmas

open Recorder

lemma step_nonstop (s : State) (e : Event) (h1 : e ≠ Event.opStop)
    (h2 : e ≠ Event.trackEnded) :
    (step s e).recorderActive = s.recorderActive ∧
      (step s e).onStopCalls = s.onStopCalls := by
  cases e with
  | result results =>
    constructor <;> (simp only [step, onresult]; split <;> rfl)
  | recogEnd =>
    constructor <;> (simp only [step, onend]; split <;> rfl)
  | tick =>
    constructor <;> (simp only [step, tick]; split <;> rfl)
  | data size =>
    constructor <;> (simp only [step, ondataavailable]; split <;> rfl)
  | highlight => exact ⟨rfl, rfl⟩
  | opStop => exact absurd rfl h1
  | trackEnded => exact absurd rfl h2

lemma handleStopRecording_inactive (s : State) (h : s.recorderActive = false) :
    (handleStopRecording s).recorderActive = false ∧
      (handleStopRecording s).onStopCalls = s.onStopCalls := by
  simp [handleStopRecording, cleanup, onstop, h]

lemma handleStopRecording_length (s : State) (h : StopInv s) :
    (handleStopRecording s).recorderActive = false ∧
      (handleStopRecording s).onStopCalls.length = 1 := by
  rcases h with ⟨ha, hc⟩ | ⟨ha, hc⟩
  · simp [handleStopRecording, cleanup, onstop, ha, hc]
  · obtain ⟨h1, h2⟩ := handleStopRecording_inactive s ha
    exact ⟨h1, by rw [h2, hc]⟩

lemma stopInv_step (s : State) (e : Event) (h : StopInv s) :
    StopInv (step s e) := by
  by_cases h1 : e = Event.opStop
  · exact Or.inr (by rw [h1]; exact handleStopRecording_length s h)
  by_cases h2 : e = Event.trackEnded
  · exact Or.inr (by rw [h2]; exact handleStopRecording_length s h)
  obtain ⟨ha, hc⟩ := step_nonstop s e h1 h2
  rcases h with ⟨hx, hy⟩ | ⟨hx, hy⟩
  · exact Or.inl ⟨ha.trans hx, hc.trans hy⟩
  · exact Or.inr ⟨ha.trans hx, by rw [hc, hy]⟩

lemma step_inactive (s : State) (e : Event) (h : s.recorderActive = false) :
    (step s e).recorderActive = false ∧ (step s e).onStopCalls = s.onStopCalls := by
  by_cases h1 : e = Event.opStop
  · rw [h1]; exact handleStopRecording_inactive s h
  by_cases h2 : e = Event.trackEnded
  · rw [h2]; exact handleStopRecording_inactive s h
  obtain ⟨ha, hc⟩ := step_nonstop s e h1 h2
  exact ⟨ha.trans h, hc⟩

lemma foldl_inactive (events : List Event) (s : State)
    (h : s.recorderActive = false) :
    (events.foldl step s).recorderActive = false ∧
      (events.foldl step s).onStopCalls = s.onStopCalls := by
  induction events generalizing s with
  | nil => exact ⟨h, rfl⟩
  | cons e es ih =>
    obtain ⟨h1, h2⟩ := step_inactive s e h
    obtain ⟨h3, h4⟩ := ih (step s e) h1
    exact ⟨h3, h4.trans h2⟩

lemma foldl_stop_delivery (events : List Event) (s : State) (hInv : StopInv s)
    (hstop : ∃ e ∈ events, e = Event.opStop ∨ e = Event.trackEnded) :
    (events.foldl step s).recorderActive = false ∧
      (events.foldl step s).onStopCalls.length = 1 := by
  induction events generalizing s with
  | nil =>
    obtain ⟨e, he, _⟩ := hstop
    exact absurd he (List.not_mem_nil e)
  | cons e es ih =>
    simp only [List.foldl_cons]
    obtain ⟨e', he', hor⟩ := hstop
    rcases List.mem_cons.mp he' with rfl | hmem
    · have hs : (step s e').recorderActive = false ∧
          (step s e').onStopCalls.length = 1 := by
        rcases hor with h1 | h1 <;>
          (rw [h1]; exact handleStopRecording_length s hInv)
      obtain ⟨h1, h2⟩ := hs
      obtain ⟨h3, h4⟩ := foldl_inactive es (step s e') h1
      exact ⟨h3, by rw [h4, h2]⟩
    · exact ih (step s e) (stopInv_step s e hInv) ⟨e', hmem, hor⟩

end RecorderLemmas

section Claims

open Recorder

/-- Claim C7, corrected part (counterexample): capturing start 10, then
end 5, then a label, then saving commits the clip `{start := 10, end := 5}`
with `start > end` — the stale-`end` guard only runs on `captureStart`,
so a later `captureEnd` below the pending start is accepted. -/
theorem c7_counterexample_inverted_clip_committed :
    (saveClip "1" (setClipLabel "Budget"
        (captureEnd 5 (captureStart 10 ClipBuilder.init)))).clips =
      [{ id := "1", label := "Budget", start := 10, «end» := 5 }] ∧
    ((saveClip "1" (setClipLabel "Budget"
        (captureEnd 5 (captureStart 10 ClipBuilder.init)))).clips.all
      (fun c => c.start ≤ c.«end»)) = false := by
  constructor
  · rfl
  · decide

/-- Claim C7, amended: `captureStart` clears a pending end that lies
before the newly captured start, so any clip committed by a save whose
most recent capture was that `captureStart` (only the label may change in
between) satisfies `start ≤ end`; a subsequent `captureEnd` below the
pending start, however, is accepted unchecked, so committed clips need
not satisfy `start ≤ end` in general. -/
theorem c7_capture_start_clears_stale_end :
    ∀ (s : ClipBuilder) (t : Nat) (l id : String) (c : VideoClip),
      c ∈ (saveClip id (setClipLabel l (captureStart t s))).clips →
      c ∈ s.clips ∨ c.start ≤ c.«end» := by
  intro s t l id c hc
  cases he : s.newClipEnd with
  | none =>
    simp [captureStart, setClipLabel, saveClip, he] at hc
    exact Or.inl hc
  | some e =>
    by_cases hlt : e < t
    · simp [captureStart, setClipLabel, saveClip, he, hlt] at hc
      exact Or.inl hc
    · by_cases htrim : jsTrim l = ""
      · simp [captureStart, setClipLabel, saveClip, he, hlt, htrim] at hc
        exact Or.inl hc
      · simp [captureStart, setClipLabel, saveClip, he, hlt, htrim] at hc
        rcases hc with hc | hc
        · exact Or.inl hc
        · subst hc
          exact Or.inr (Nat.le_of_not_lt hlt)

/-- Witness for `c7_capture_start_clears_stale_end` at a concrete run:
from a builder holding a pending end of 7, capturing start 3 and saving
commits `{start := 3, end := 7}`, and indeed `3 ≤ 7`. -/
theorem c7_capture_start_clears_stale_end_witness :
    ({ id := "1", label := "Budget", start := 3, «end» := 7 } : VideoClip) ∈
      (saveClip "1" (setClipLabel "Budget" (captureStart 3
        { newClipStart := none, newClipEnd := some 7, newClipLabel := ""
          clips := [] }))).clips ∧
    (({ id := "1", label := "Budget", start := 3, «end» := 7 } : VideoClip) ∈
        ({ newClipStart := none, newClipEnd := some 7, newClipLabel := ""
           clips := [] } : ClipBuilder).clips ∨ (3 : Nat) ≤ 7) :=
  ⟨by decide,
   c7_capture_start_clears_stale_end
     { newClipStart := none, newClipEnd := some 7, newClipLabel := ""
       clips := [] } 3 "Budget" "1"
     { id := "1", label := "Budget", start := 3, «end» := 7 } (by decide)⟩

/-- Claim C9: merging imported calendar events into the existing meeting
list keeps every existing meeting unchanged and in order (the merge
result starts with `prev` itself), and every appended entry comes from
the import and has an id that occurs in no existing meeting. -/
theorem c9_merge_preserves_existing_appends_fresh :
    ∀ (prev newEvents : List Meeting),
      (mergeMeetings prev newEvents).take prev.length = prev ∧
      ∀ e ∈ (mergeMeetings prev newEvents).drop prev.length,
        e ∈ newEvents ∧ ∀ m ∈ prev, m.id ≠ e.id := by
  intro prev newEvents
  constructor
  · rw [mergeMeetings]
    exact List.take_left prev _
  · intro e he
    rw [mergeMeetings, List.drop_left] at he
    rw [List.mem_filter] at he
    refine ⟨he.1, fun m hm hid => ?_⟩
    have hp := he.2
    simp only [Bool.not_eq_true'] at hp
    have h3 : (prev.map (fun x => x.id)).elem e.id = true :=
      List.elem_iff.mpr (List.mem_map.mpr ⟨m, hm, hid⟩)
    exact Bool.noConfusion (h3.symm.trans hp)

/-- Witness for `c9_merge_preserves_existing_appends_fresh` at a concrete
merge: importing a duplicate of `m1` (same id, different title) plus a
fresh `m2` into `[m1]` keeps `[m1]` as the first element and appends
exactly `m2`, whose id differs from `m1`'s. -/
theorem c9_merge_preserves_existing_appends_fresh_witness :
    (mergeMeetings
        [{ id := "m1", title := "Roadmap", platform := "Meet", time := "10:00"
           duration := "45 min", url := "u1", attendees := [] }]
        [{ id := "m1", title := "Changed", platform := "Zoom", time := "11:00"
           duration := "30 min", url := "u2", attendees := [] },
         { id := "m2", title := "Standup", platform := "Meet", time := "14:00"
           duration := "15 min", url := "u3", attendees := [] }]).take 1 =
      [{ id := "m1", title := "Roadmap", platform := "Meet", time := "10:00"
         duration := "45 min", url := "u1", attendees := [] }] ∧
    ({ id := "m2", title := "Standup", platform := "Meet", time := "14:00"
       duration := "15 min", url := "u3", attendees := [] } : Meeting) ∈
      [{ id := "m1", title := "Changed", platform := "Zoom", time := "11:00"
         duration := "30 min", url := "u2", attendees := [] },
       { id := "m2", title := "Standup", platform := "Meet", time := "14:00"
         duration := "15 min", url := "u3", attendees := [] }] ∧
    ({ id := "m1", title := "Roadmap", platform := "Meet", time := "10:00"
       duration := "45 min", url := "u1", attendees := [] } : Meeting).id ≠
      ({ id := "m2", title := "Standup", platform := "Meet", time := "14:00"
         duration := "15 min", url := "u3", attendees := [] } : Meeting).id := by
  have C := c9_merge_preserves_existing_appends_fresh
    [{ id := "m1", title := "Roadmap", platform := "Meet", time := "10:00"
       duration := "45 min", url := "u1", attendees := [] }]
    [{ id := "m1", title := "Changed", platform := "Zoom", time := "11:00"
       duration := "30 min", url := "u2", attendees := [] },
     { id := "m2", title := "Standup", platform := "Meet", time := "14:00"
       duration := "15 min", url := "u3", attendees := [] }]
  have D := C.2
    { id := "m2", title := "Standup", platform := "Meet", time := "14:00"
      duration := "15 min", url := "u3", attendees := [] } (by decide)
  exact ⟨C.1, D.1, D.2
    { id := "m1", title := "Roadmap", platform := "Meet", time := "10:00"
      duration := "45 min", url := "u1", attendees := [] } (by decide)⟩

/-- Claim C3, corrected part (counterexample): a session that acquired
display video track 0, display audio track 1 and microphone audio track 2,
with mixer destination track 3, stops only tracks 0 and 3 at teardown —
the acquired display audio track 1 and microphone track 2 remain live. -/
theorem c3_counterexample_device_audio_tracks_left_live :
    startCapture (some { videoTracks := [0], audioTracks := [1] })
        (some { videoTracks := [], audioTracks := [2] }) 3 =
      Except.ok
        { displayStream := { videoTracks := [0], audioTracks := [1] }
          micStream := { videoTracks := [], audioTracks := [2] }
          mixSources := [MixSource.sysSource, MixSource.micSource]
          mixedStream := { videoTracks := [0], audioTracks := [3] } } ∧
    cleanupStoppedTracks (some { videoTracks := [0], audioTracks := [3] }) = [0, 3] ∧
    (1 : Nat) ∉ cleanupStoppedTracks (some { videoTracks := [0], audioTracks := [3] }) ∧
    (2 : Nat) ∉ cleanupStoppedTracks (some { videoTracks := [0], audioTracks := [3] }) := by
  refine ⟨rfl, rfl, ?_, ?_⟩ <;> decide

/-- Claim C3, amended: teardown stops exactly the tracks of the composed
recording stream — the display video tracks plus the mixer destination
track — so the display's device audio tracks and the microphone's device
audio tracks (when distinct from those) are never stopped; and on the
failed-acquisition path, where `streamRef` was never assigned, no track
is stopped at all. -/
theorem c3_teardown_stops_only_composed_stream :
    ∀ (d m : MediaStream) (destTrack : Nat) (a : Acquired),
      startCapture (some d) (some m) destTrack = Except.ok a →
      cleanupStoppedTracks (some a.mixedStream) = d.videoTracks ++ [destTrack] ∧
        (∀ t ∈ m.audioTracks, t ∉ d.videoTracks → t ≠ destTrack →
          t ∉ cleanupStoppedTracks (some a.mixedStream)) ∧
        (∀ t ∈ d.audioTracks, t ∉ d.videoTracks → t ≠ destTrack →
          t ∉ cleanupStoppedTracks (some a.mixedStream)) ∧
        cleanupStoppedTracks none = [] := by
  intro d m destTrack a h
  simp only [startCapture, Except.ok.injEq] at h
  subst h
  refine ⟨rfl, ?_, ?_, rfl⟩ <;>
  · intro t _ h1 h2
    simp only [cleanupStoppedTracks, MediaStream.getTracks, List.mem_append,
      List.mem_singleton]
    rintro (hx | hx)
    · exact h1 hx
    · exact h2 hx

/-- Witness for `c3_teardown_stops_only_composed_stream` at the concrete
acquisition of `c3_counterexample_device_audio_tracks_left_live`. -/
theorem c3_teardown_stops_only_composed_stream_witness :
    cleanupStoppedTracks
        (some ({ displayStream := { videoTracks := [0], audioTracks := [1] }
                 micStream := { videoTracks := [], audioTracks := [2] }
                 mixSources := [MixSource.sysSource, MixSource.micSource]
                 mixedStream := { videoTracks := [0], audioTracks := [3] } } :
            Acquired).mixedStream) = [0] ++ [3] ∧
    (2 : Nat) ∉ cleanupStoppedTracks
        (some ({ displayStream := { videoTracks := [0], audioTracks := [1] }
                 micStream := { videoTracks := [], audioTracks := [2] }
                 mixSources := [MixSource.sysSource, MixSource.micSource]
                 mixedStream := { videoTracks := [0], audioTracks := [3] } } :
            Acquired).mixedStream) ∧
    (1 : Nat) ∉ cleanupStoppedTracks
        (some ({ displayStream := { videoTracks := [0], audioTracks := [1] }
                 micStream := { videoTracks := [], audioTracks := [2] }
                 mixSources := [MixSource.sysSource, MixSource.micSource]
                 mixedStream := { videoTracks := [0], audioTracks := [3] } } :
            Acquired).mixedStream) ∧
    cleanupStoppedTracks (none : Option MediaStream) = [] := by
  have C := c3_teardown_stops_only_composed_stream
    { videoTracks := [0], audioTracks := [1] }
    { videoTracks := [], audioTracks := [2] } 3
    { displayStream := { videoTracks := [0], audioTracks := [1] }
      micStream := { videoTracks := [], audioTracks := [2] }
      mixSources := [MixSource.sysSource, MixSource.micSource]
      mixedStream := { videoTracks := [0], audioTracks := [3] } } rfl
  exact ⟨C.1, C.2.1 2 (by decide) (by decide) (by decide),
    C.2.2.1 1 (by decide) (by decide) (by decide), C.2.2.2⟩

/-- Claim C4, corrected part (counterexample): with display capture
granted (video track 0, audio track 1) and microphone permission denied,
the start sequence does not proceed with display audio alone — it fails
with the `NotAllowedError` denial. -/
theorem c4_counterexample_mic_denial_fails_start :
    startCapture (some { videoTracks := [0], audioTracks := [1] }) none 3 =
      Except.error CaptureError.notAllowed := rfl

/-- Claim C4, amended: denial of either permission prompt is terminal —
microphone denial aborts the start sequence even when display capture
succeeded, display denial aborts it regardless of the microphone, denial
of both likewise fails — and in every denial case no capture session (and
hence no RecordedArtifact) is produced. -/
theorem c4_any_denial_is_terminal :
    ∀ (d m : MediaStream) (destTrack : Nat),
      startCapture (some d) none destTrack = Except.error CaptureError.notAllowed ∧
      startCapture none (some m) destTrack = Except.error CaptureError.notAllowed ∧
      startCapture none none destTrack = Except.error CaptureError.notAllowed ∧
      (startCapture (some d) none destTrack).toOption = none ∧
      (startCapture none (some m) destTrack).toOption = none ∧
      (startCapture none none destTrack).toOption = none :=
  fun _ _ _ => ⟨rfl, rfl, rfl, rfl, rfl, rfl⟩

/-- Claim C6, corrected part (counterexample): normalizing a backend
result with every optional field omitted yields
`summaryText = "No summary generated."`, not the empty string the claim
demands. -/
theorem c6_counterexample_placeholder_summary_text :
    (normalizeSummaryData (some "Q3 Review") "1/1/2026"
        (serviceMerge GenParsed.empty
          [{ timestamp := 3, text := "hi", isFinal := true }])).summaryText =
      "No summary generated." ∧
    (normalizeSummaryData (some "Q3 Review") "1/1/2026"
        (serviceMerge GenParsed.empty
          [{ timestamp := 3, text := "hi", isFinal := true }])).summaryText ≠ "" := by
  exact ⟨rfl, by decide⟩

/-- Claim C6, amended: a `SummaryResult` in which the backend omitted
every optional field normalizes to `summaryText = "No summary generated."`
(an explanatory placeholder, not the empty string), empty `keyPoints`,
`actionItems` and `attendeesDetected`, `sentiment = "Neutral"`,
`followUpEmail = ""`, and `transcript` equal to the transcript supplied
in the request — regardless of any `transcript` the backend itself
returned. -/
theorem c6_normalization_defaults :
    ∀ (title : Option String) (date : String) (ts : List TranscriptSegment)
      (backendTs : Option (List TranscriptSegment)),
      (normalizeSummaryData title date
        (serviceMerge { GenParsed.empty with transcript := backendTs } ts)).summaryText =
          "No summary generated." ∧
      (normalizeSummaryData title date
        (serviceMerge { GenParsed.empty with transcript := backendTs } ts)).keyPoints = [] ∧
      (normalizeSummaryData title date
        (serviceMerge { GenParsed.empty with transcript := backendTs } ts)).actionItems = [] ∧
      (normalizeSummaryData title date
        (serviceMerge { GenParsed.empty with transcript := backendTs } ts)).attendeesDetected = [] ∧
      (normalizeSummaryData title date
        (serviceMerge { GenParsed.empty with transcript := backendTs } ts)).sentiment = "Neutral" ∧
      (normalizeSummaryData title date
        (serviceMerge { GenParsed.empty with transcript := backendTs } ts)).followUpEmail = "" ∧
      (normalizeSummaryData title date
        (serviceMerge { GenParsed.empty with transcript := backendTs } ts)).transcript = ts :=
  fun _ _ _ _ => ⟨rfl, rfl, rfl, rfl, rfl, rfl, rfl⟩

/-- Claim C10: when the API key was absent at module load (so the module
constant is the empty string), `generateMeetingSummary` fails immediately
with "API Key is missing. Please set process.env.API_KEY" — the same
error for every backend, which is therefore never consulted — and when a
key is present the built request is handed to the backend. -/
theorem c10_missing_key_fails_before_request :
    ∀ (audioData contextText : String) (transcript : List TranscriptSegment)
      (highlights : List MeetingHighlight)
      (backend backend' : SummaryRequest → Except String GenParsed),
      generateMeetingSummary (apiKeyOfEnv none) audioData contextText
          transcript highlights backend =
        Except.error "API Key is missing. Please set process.env.API_KEY" ∧
      generateMeetingSummary (apiKeyOfEnv none) audioData contextText
          transcript highlights backend =
        generateMeetingSummary (apiKeyOfEnv none) audioData contextText
          transcript highlights backend' ∧
      ∀ apiKey : String, apiKey ≠ "" →
        generateMeetingSummary apiKey audioData contextText transcript
            highlights backend =
          (match backend (buildSummaryRequest audioData contextText transcript highlights) with
           | Except.error e => Except.error e
           | Except.ok parsed => Except.ok (serviceMerge parsed transcript)) := by
  intro audioData contextText transcript highlights backend backend'
  refine ⟨rfl, rfl, fun apiKey hk => ?_⟩
  simp only [generateMeetingSummary, if_neg hk]

/-- Witness for `c10_missing_key_fails_before_request` with a present
key `"k"` and a backend that answers with the all-omitted result. -/
theorem c10_missing_key_fails_before_request_witness :
    generateMeetingSummary (apiKeyOfEnv none) "a" "ctx" [] []
        (fun _ => Except.ok GenParsed.empty) =
      Except.error "API Key is missing. Please set process.env.API_KEY" ∧
    generateMeetingSummary "k" "a" "ctx" [] []
        (fun _ => Except.ok GenParsed.empty) =
      Except.ok (serviceMerge GenParsed.empty []) := by
  have C := c10_missing_key_fails_before_request "a" "ctx" [] []
    (fun _ => Except.ok GenParsed.empty) (fun _ => Except.ok GenParsed.empty)
  exact ⟨C.1, C.2.2 "k" (by decide)⟩

/-- Claim C1 (code-bug evaluation): in a session where one transcript
segment was finalized and one highlight was marked before the operator
stop (n = 1, m = 1), the `onStop` handoff carries the empty transcript
and highlight lists — `mediaRecorder.onstop` closed over the mount
render's `transcript` and `highlights` constants, both `[]` — so the
summarization request does not receive the accumulated data. -/
theorem c1_onstop_handoff_carries_mount_snapshot :
    (run [Event.tick, Event.result [{ isFinal := true, transcript := "hello" }],
        Event.highlight, Event.data 1, Event.opStop]).transcript =
      [{ timestamp := 0, text := "hello", isFinal := true }] ∧
    (run [Event.tick, Event.result [{ isFinal := true, transcript := "hello" }],
        Event.highlight, Event.data 1, Event.opStop]).highlights =
      [{ timestamp := 1, label := "Important" }] ∧
    (run [Event.tick, Event.result [{ isFinal := true, transcript := "hello" }],
        Event.highlight, Event.data 1, Event.opStop]).onStopCalls =
      [{ chunks := [1], transcript := [], highlights := [] }] :=
  ⟨rfl, rfl, rfl⟩

/-- Claim C2 (code-bug evaluation): a recognition result finalized while
the session clock reads 5 is appended with timestamp 0, the mount
render's `duration` captured by the `onresult` closure, not the current
clock value; the in-progress partial is cleared as claimed. -/
theorem c2_final_segment_timestamp_is_stale :
    (run [Event.tick, Event.tick, Event.tick, Event.tick, Event.tick,
        Event.result [{ isFinal := true, transcript := "hello" }]]).duration = 5 ∧
    (run [Event.tick, Event.tick, Event.tick, Event.tick, Event.tick,
        Event.result [{ isFinal := true, transcript := "hello" }]]).transcript =
      [{ timestamp := 0, text := "hello", isFinal := true }] ∧
    (run [Event.tick, Event.tick, Event.tick, Event.tick, Event.tick,
        Event.result [{ isFinal := true, transcript := "hello" }]]).currentText = "" :=
  ⟨rfl, rfl, rfl⟩

/-- Claim C5 (code-bug evaluation): recognition is running in the freshly
started session, whose logical state is Recording, yet after a
spontaneous recognition end no restart is attempted — the `onend`
closure's captured `status` is the mount render's `'IDLE'`, so the
`status === 'RECORDING'` guard never passes. -/
theorem c5_no_restart_on_spontaneous_end :
    startedState.recognitionRunning = true ∧
    startedState.status = Status.recording ∧
    mountEnv.status = Status.idle ∧
    (run [Event.recogEnd]).status = Status.recording ∧
    (run [Event.recogEnd]).recognitionRunning = false :=
  ⟨rfl, rfl, rfl, rfl, rfl⟩

/-- Claim C8: any event sequence containing an operator stop or a
device-revocation stop (in particular both, in either order) leaves the
recorder inactive and produces exactly one `onStop` delivery — one
RecordedArtifact — and invoking `handleStopRecording` on an inactive
recorder is a no-op on deliveries. -/
theorem c8_stop_idempotent_single_delivery :
    ∀ events : List Event,
      (∃ e ∈ events, e = Event.opStop ∨ e = Event.trackEnded) →
      (run events).onStopCalls.length = 1 ∧
        (run events).recorderActive = false ∧
        ∀ s : State, s.recorderActive = false →
          (handleStopRecording s).onStopCalls = s.onStopCalls := by
  intro events h
  obtain ⟨h1, h2⟩ :=
    foldl_stop_delivery events startedState (Or.inl ⟨rfl, rfl⟩) h
  exact ⟨h2, h1, fun s hs => (handleStopRecording_inactive s hs).2⟩

/-- Witness for `c8_stop_idempotent_single_delivery`: the operator stop
and the device-revocation stop arriving back to back deliver exactly
once, and a further `handleStopRecording` on the stopped state changes
nothing. -/
theorem c8_stop_idempotent_single_delivery_witness :
    (∃ e ∈ [Event.opStop, Event.trackEnded],
        e = Event.opStop ∨ e = Event.trackEnded) ∧
    (run [Event.opStop, Event.trackEnded]).onStopCalls.length = 1 ∧
    (run [Event.opStop, Event.trackEnded]).recorderActive = false ∧
    (handleStopRecording (run [Event.opStop])).onStopCalls =
      (run [Event.opStop]).onStopCalls := by
  have hx : ∃ e ∈ [Event.opStop, Event.trackEnded],
      e = Event.opStop ∨ e = Event.trackEnded :=
    ⟨Event.opStop, List.mem_cons_self _ _, Or.inl rfl⟩
  obtain ⟨a, b, c⟩ := c8_stop_idempotent_single_delivery _ hx
  exact ⟨hx, a, b, c (run [Event.opStop]) rfl⟩

end Claims

end NotePilot
